import Mathlib

/-!
Shallow embedding of the SWM pool-occupancy scraper (Python) in Lean 4.

Modules embedded:
* `src/models.py`       — `PoolOccupancy` record with derived fields.
* `src/api_scraper.py`  — `fetch_occupancy` and `scrape_pool_data`.
* `src/data_storage.py` — `save_to_csv` and `save_to_json`.
* `src/facilities.py`   — static `FACILITIES` table, `get_org_id`,
  `UnknownFacilityError`.
* `src/facility_registry.py` — `Facility`, `add_facility`.

Modelling conventions: Python `float` arithmetic is modelled with exact
rationals (ℚ); Python's builtin `round` (banker's rounding, round half to
even) is `pyRound`; Python strings are Lean `String`s and regex/`in`
operations are recursive functions over `String.data`; the filesystem is
explicit state (`Option` of file contents); `datetime` objects are modelled
by the interface the code uses (`isoformat()`, `.hour`, `.weekday()`).
-/

/-- Python's builtin `round` on an exact rational: round half to even. -/
def pyRound (q : ℚ) : ℤ :=
  let n : ℤ := ⌊q⌋
  let frac : ℚ := q - n
  if frac < 1/2 then n
  else if 1/2 < frac then n + 1
  else if n % 2 = 0 then n else n + 1

/-- Interface model of a Python `datetime` value: the only observations the
embedded code makes are `isoformat()`, `.hour` and `.weekday()` (0 = Monday,
6 = Sunday, always in `0..6`). -/
structure DateTime where
  iso : String
  hour : Nat
  weekday : Fin 7
deriving DecidableEq, Repr

/-- Python's regex class `\s` (ASCII part): space, tab, newline, carriage
return, vertical tab, form feed. -/
def isPySpace (c : Char) : Bool :=
  c = ' ' || c = '\t' || c = '\n' || c = '\r' || c = '\x0b' || c = '\x0c'

/-- Numeric value of a digit string, as produced by `int`/`float` on a
regex group of `\d+`. -/
def digitsVal (ds : List Char) : Nat :=
  ds.foldl (fun acc c => 10 * acc + (c.toNat - '0'.toNat)) 0

/-- True when the regex fragment `\s*%` matches a prefix of `l`. -/
def pctAfter (l : List Char) : Bool :=
  match l.dropWhile isPySpace with
  | '%' :: _ => true
  | _ => false

/-- Model of `re.search(r'(\d+)\s*%', s)` returning the numeric value of
group 1, scanning positions left to right.  At a position starting with a
digit the greedy `\d+` must consume the whole digit run: any shorter capture
is followed directly by a digit, which can match neither `\s*` nor `%`, so
backtracking inside the run never succeeds. -/
def searchNumPct : List Char → Option Nat
  | [] => none
  | c :: rest =>
    if c.isDigit then
      if pctAfter ((c :: rest).dropWhile Char.isDigit) then
        some (digitsVal ((c :: rest).takeWhile Char.isDigit))
      else searchNumPct rest
    else searchNumPct rest

/-- The record model from `src/models.py` (`PoolOccupancy`).  The Python
class stores `facility_type` in a settable private attribute defaulting to
`"unknown"`; we model it as a field with that default. -/
structure PoolOccupancy where
  pool_name : String
  occupancy_level : String
  timestamp : DateTime
  raw_occupancy : Option String := none
  facility_type : String := "unknown"
deriving DecidableEq

namespace models

/-- Property `occupancy_percent` from `src/models.py`: `None` for a falsy
(empty) label, else the first regex match of `(\d+)\s*%`, converted by
`float` (modelled as ℚ). -/
def occupancy_percent (p : PoolOccupancy) : Option ℚ :=
  if p.occupancy_level = "" then none
  else (searchNumPct p.occupancy_level.data).map (fun n => (n : ℚ))

/-- The closed-indicator keywords from `PoolOccupancy.is_open`. -/
def closed_keywords : List String := ["geschlossen", "closed", "zu"]

/-- Model of Python `str.lower` (ASCII case folding; every string the
embedded claims touch is ASCII-cased). -/
def lowerStr (s : String) : String := ⟨s.data.map Char.toLower⟩

/-- Helper for substring search: does `nd` occur at the very start of
`hay`?  (Model of Python's `str.startswith`, used to express `in`.) -/
def leadsWith : List Char → List Char → Bool
  | _, [] => true
  | [], _ :: _ => false
  | c :: cs, d :: ds => (c = d) && leadsWith cs ds

/-- Model of Python's substring test `nd in hay`. -/
def hasSubstr : List Char → List Char → Bool
  | [], nd => nd.isEmpty
  | c :: rest, nd => leadsWith (c :: rest) nd || hasSubstr rest nd

/-- Property `is_open` from `src/models.py`: `False` for a falsy (empty)
label, else true unless some closed keyword occurs in the lowercased
label. -/
def is_open (p : PoolOccupancy) : Bool :=
  if p.occupancy_level = "" then false
  else ! closed_keywords.any (fun kw => hasSubstr (lowerStr p.occupancy_level).data kw.data)

/-- Property `hour` from `src/models.py`. -/
def hour (p : PoolOccupancy) : Nat := p.timestamp.hour

/-- Property `day_of_week` from `src/models.py` (0 = Monday). -/
def day_of_week (p : PoolOccupancy) : Nat := p.timestamp.weekday.val

/-- The day-name table from `PoolOccupancy.day_name`. -/
def days : List String :=
  ["Monday", "Tuesday", "Wednesday", "Thursday", "Friday", "Saturday", "Sunday"]

/-- Property `day_name` from `src/models.py`: `days[self.day_of_week]`. -/
def day_name (p : PoolOccupancy) : String :=
  days.get ⟨p.timestamp.weekday.val, p.timestamp.weekday.isLt⟩

/-- Property `is_weekend` from `src/models.py`. -/
def is_weekend (p : PoolOccupancy) : Bool := day_of_week p ≥ 5

end models

/-- Rendering of the specification sentence for the occupancy-percent
invariant: scan the label's maximal digit runs from the left and return the
value of the first run that is followed, possibly after whitespace, by a
`%` sign.  This definition follows the claim's words and is compared with
the source-derived `searchNumPct`. -/
def specFirstPctInt : List Char → Option Nat
  | [] => none
  | c :: rest =>
    if c.isDigit then
      if pctAfter (rest.dropWhile Char.isDigit) then
        some (digitsVal ((c :: rest).takeWhile Char.isDigit))
      else specFirstPctInt (rest.dropWhile Char.isDigit)
    else specFirstPctInt rest
termination_by l => l.length
decreasing_by
  · simp only [List.length_cons]
    have := (List.dropWhile_suffix (l := rest) Char.isDigit).length_le
    omega
  · simp

/-- The facility-type enum of `src/facility_registry.py`. -/
inductive FacilityType where
  | POOL
  | SAUNA
  | UNKNOWN
deriving DecidableEq

/-- String value of a registry facility type (`FacilityType(...).value`). -/
def FacilityType.value : FacilityType → String
  | .POOL => "pool"
  | .SAUNA => "sauna"
  | .UNKNOWN => "unknown"

/-- The `Facility` dataclass of `src/facility_registry.py`. -/
structure Facility where
  org_id : Int
  name : String
  facility_type : FacilityType
  max_capacity : Option Int := none
  last_seen : Option DateTime := none
  first_seen : Option DateTime := none
  active : Bool := true
  auto_discovered : Bool := false
deriving DecidableEq

namespace api_scraper

/-- One element of the counter API's JSON response: the two fields
`scrape_pool_data` reads (optional, because the code accesses them with
`dict.get` and a default), plus a flag recording whether the mapping
carries any further keys, so that Python's dict truthiness (`if data:` is
false exactly for the empty mapping) is expressible. -/
structure Payload where
  personCount : Option Int := none
  maxPersonCount : Option Int := none
  otherKeys : Bool := false
deriving DecidableEq

/-- Python truthiness of the payload dict: non-empty, i.e. it has at
least one key. -/
def Payload.truthy (data : Payload) : Bool :=
  data.personCount.isSome || data.maxPersonCount.isSome || data.otherKeys

/-- Occupancy-percent computation inlined in `scrape_pool_data`
(`src/api_scraper.py` lines 95–102): missing `personCount` defaults to 0,
missing `maxPersonCount` defaults to 1, and the guarded division maps a
non-positive capacity to 0.  Python float arithmetic is modelled exactly
over ℚ. -/
def derive_percent (data : Payload) : Int :=
  let current_count := data.personCount.getD 0
  let max_count := data.maxPersonCount.getD 1
  if max_count > 0 then
    pyRound ((1 - (current_count : ℚ) / (max_count : ℚ)) * 100)
  else 0

/-- Shape of a parsed JSON body as far as `fetch_occupancy` inspects it:
a list of payloads, or some non-list value. -/
inductive JsonBody where
  | arr (elems : List Payload)
  | nonList

/-- Outcome of the transport layer for one `session.get` call, after the
adapter's automatic retries: either a parsed JSON body from a non-error
response, or a `requests.exceptions.RequestException` (timeouts, connection
errors, and the `HTTPError` thrown by `raise_for_status`). -/
inductive HttpResult where
  | success (body : JsonBody)
  | requestError (msg : String)

/-- Model of `SWMAPIScraper.fetch_occupancy` (`src/api_scraper.py` lines
54–74): on a successful response whose JSON is a non-empty list, return its
first element; on an empty list, a non-list body, or any
`RequestException`, return `None`. -/
def fetch_occupancy (r : HttpResult) : Option Payload :=
  match r with
  | .requestError _ => none
  | .success body =>
    match body with
    | .arr (first :: _) => some first
    | .arr [] => none
    | .nonList => none

/-- Loop body of `scrape_pool_data` over the active facilities, returning
the collected records and the (possibly capacity-refreshed) facilities.
`fetch` stands for `fetch_occupancy`'s result per org id and `t` for the
single `datetime.now()` captured before the loop.  The source guards the
record construction with `if data:` (`src/api_scraper.py` line 93): both
`None` and a falsy (empty) dict payload are skipped with only a warning
logged. -/
def scrape_step (fetch : Int → Option Payload) (t : DateTime) :
    List Facility → List PoolOccupancy × List Facility
  | [] => ([], [])
  | f :: rest =>
    let tail := scrape_step fetch t rest
    match fetch f.org_id with
    | none => (tail.1, f :: tail.2)
    | some data =>
      if data.truthy then
        let current_count := data.personCount.getD 0
        let max_count := data.maxPersonCount.getD 1
        let occupancy_percent := derive_percent data
        let f' :=
          if max_count ≠ 0 ∧ f.max_capacity ≠ some max_count then
            { f with max_capacity := some max_count, last_seen := some t }
          else f
        let record : PoolOccupancy :=
          { pool_name := f.name
            occupancy_level := toString occupancy_percent ++ " % frei"
            timestamp := t
            raw_occupancy := some (toString current_count ++ "/" ++ toString max_count ++ " persons")
            facility_type := f.facility_type.value }
        (record :: tail.1, f' :: tail.2)
      else (tail.1, f :: tail.2)

/-- Model of `SWMAPIScraper.scrape_pool_data` (`src/api_scraper.py` lines
76–125): one timestamp captured at batch start, then one fetch per active
facility in registry order. -/
def scrape_pool_data (facilities : List Facility) (fetch : Int → Option Payload)
    (t : DateTime) : List PoolOccupancy × List Facility :=
  scrape_step fetch t (facilities.filter (·.active))

end api_scraper

namespace facilities

/-- The facility-type enum of `src/facilities.py` (distinct from the
registry's enum: it has `ICE_RINK` instead of `UNKNOWN`). -/
inductive FacilityType where
  | POOL
  | SAUNA
  | ICE_RINK
deriving DecidableEq

/-- The static `FACILITIES` table of `src/facilities.py`: the mapping
`(facility_name, facility_type) -> org_id`, in source order. -/
def FACILITIES : List ((String × FacilityType) × Int) :=
  [(("Bad Giesing-Harlaching", .POOL), 30195),
   (("Cosimawellenbad", .POOL), 30190),
   (("Dante-Winter-Warmfreibad", .POOL), 129),
   (("Michaelibad", .POOL), 30208),
   (("M端ller'sches Volksbad", .POOL), 30197),
   (("Nordbad", .POOL), 30184),
   (("Olympia-Schwimmhalle", .POOL), 30182),
   (("S端dbad", .POOL), 30187),
   (("Westbad", .POOL), 30199),
   (("Cosimawellenbad", .SAUNA), 30191),
   (("Dantebad", .SAUNA), 30200),
   (("Michaelibad", .SAUNA), 30203),
   (("M端ller'sches Volksbad", .SAUNA), 30204),
   (("Nordbad", .SAUNA), 30185),
   (("S端dbad", .SAUNA), 30188),
   (("Westbad", .SAUNA), 30207),
   (("Prinzregentenstadion - Eislaufbahn", .ICE_RINK), 30356)]

/-- Model of `get_org_id` (`src/facilities.py` lines 53–55):
`FACILITIES.get((name, facility_type))`. -/
def get_org_id (name : String) (facility_type : FacilityType) : Option Int :=
  (FACILITIES.find? (fun e => e.1.1 == name && e.1.2 == facility_type)).map (·.2)

/-- The data carried by `UnknownFacilityError` (`src/facilities.py` lines
72–84): the attempted facility name and type, exposed as attributes. -/
structure UnknownFacilityError where
  name : String
  facility_type : FacilityType
deriving DecidableEq

/-- Modelled from the spec: `require_id(name, type) -> id` is specified
(§4.1 of the spec) but absent from `src/`; per the spec it "fails with
`UnknownFacilityError` when no mapping exists; the error must carry the
attempted name/type", and otherwise returns the mapped id. -/
def require_id (name : String) (facility_type : FacilityType) :
    Except UnknownFacilityError Int :=
  match get_org_id name facility_type with
  | some org_id => Except.ok org_id
  | none => Except.error ⟨name, facility_type⟩

end facilities

namespace facility_registry

set_option linter.unusedVariables false in
/-- Model of `FacilityRegistry.add_facility` (`src/facility_registry.py`
lines 121–130).  The method first sets `facility.auto_discovered`, then
evaluates `if org_id not in self.facilities:`.  The name `org_id` is free
there — the parameter is `facility`, and no local, enclosing or module
binding of `org_id` exists in `facility_registry.py` — so that statement
raises `NameError` before the registry mapping is touched or saved.  The
model returns the mutated facility argument together with the raised
error; the registry contents are never updated. -/
def add_facility (facilities : List (Int × Facility)) (facility : Facility)
    (auto_discovered : Bool) : Facility × Except String (List (Int × Facility)) :=
  let facility := { facility with auto_discovered := auto_discovered }
  (facility, Except.error "NameError: name 'org_id' is not defined")

end facility_registry

/-- JSON values, as produced by `json.dump` on the document that
`save_to_json` builds.  Python floats appear as `rat`. -/
inductive JVal where
  | str : String → JVal
  | int : Int → JVal
  | rat : ℚ → JVal
  | bool : Bool → JVal
  | null : JVal
  | arr : List JVal → JVal
  | obj : List (String × JVal) → JVal

/-- Cell values of a CSV row as `csv.DictWriter` receives them from
`to_csv_row`: strings, ints, floats, or `None` (written as an empty
cell). -/
inductive CsvValue where
  | str : String → CsvValue
  | int : Int → CsvValue
  | rat : ℚ → CsvValue
  | blank : CsvValue
deriving DecidableEq

namespace models

/-- Model of `PoolOccupancy.to_dict` (`src/models.py` lines 66–80). -/
def to_dict (p : PoolOccupancy) : List (String × JVal) :=
  [("pool_name", .str p.pool_name),
   ("facility_type", .str p.facility_type),
   ("occupancy_level", .str p.occupancy_level),
   ("occupancy_percent",
     match occupancy_percent p with
     | some q => .rat q
     | none => .null),
   ("is_open", .bool (is_open p)),
   ("timestamp", .str p.timestamp.iso),
   ("hour", .int (hour p)),
   ("day_of_week", .int (day_of_week p)),
   ("day_name", .str (day_name p)),
   ("is_weekend", .bool (is_weekend p)),
   ("raw_occupancy",
     match p.raw_occupancy with
     | some s => .str s
     | none => .null)]

/-- Model of `PoolOccupancy.to_csv_row` (`src/models.py` lines 82–94). -/
def to_csv_row (p : PoolOccupancy) : List (String × CsvValue) :=
  [("timestamp", .str p.timestamp.iso),
   ("pool_name", .str p.pool_name),
   ("facility_type", .str p.facility_type),
   ("occupancy_percent",
     match occupancy_percent p with
     | some q => .rat q
     | none => .blank),
   ("is_open", .int (if is_open p then 1 else 0)),
   ("hour", .int (hour p)),
   ("day_of_week", .int (day_of_week p)),
   ("is_weekend", .int (if is_weekend p then 1 else 0)),
   ("occupancy_text", .str p.occupancy_level)]

end models

namespace data_storage

/-- Association-list lookup modelling Python `dict` access on the ordered
dictionaries the persistence layer builds (keys are unique). -/
def jlookup {α : Type} (k : String) : List (String × α) → Option α
  | [] => none
  | (k', v) :: rest => if k' = k then some v else jlookup k rest

/-- One line of the CSV file: the header line or one data row (a
`to_csv_row` dict, rendered by `csv.DictWriter` in `fieldnames` order). -/
inductive CsvLine where
  | header
  | row : List (String × CsvValue) → CsvLine
deriving DecidableEq

/-- The fixed CSV column order of `save_to_csv`
(`src/data_storage.py` lines 31–34). -/
def fieldnames : List String :=
  ["timestamp", "pool_name", "facility_type", "occupancy_percent",
   "is_open", "hour", "day_of_week", "is_weekend", "occupancy_text"]

/-- Model of `DataStorage.save_to_csv` (`src/data_storage.py` lines
23–47).  The file is explicit state: `none` when the target path does not
exist, `some lines` otherwise.  Existence is tested before opening; the
file is opened in append mode, the header is written only when the file
did not exist, then one row per record in batch order. -/
def save_to_csv (file : Option (List CsvLine)) (pool_data : List PoolOccupancy) :
    List CsvLine :=
  let file_exists := file.isSome
  let contents := file.getD []
  let contents := if file_exists then contents else contents ++ [CsvLine.header]
  contents ++ pool_data.map (fun p => CsvLine.row (models.to_csv_row p))

/-- Appending one record under its type key, as
`by_type[facility.facility_type].append(facility)` does on a
`defaultdict(list)`: an existing key keeps its position and grows its
list, a new key is inserted at the end. -/
def insertAppend (l : List (String × List PoolOccupancy)) (k : String)
    (p : PoolOccupancy) : List (String × List PoolOccupancy) :=
  match l with
  | [] => [(k, [p])]
  | (k', ps) :: rest =>
    if k' = k then (k', ps ++ [p]) :: rest else (k', ps) :: insertAppend rest k p

/-- The `by_type` grouping loop of `save_to_json`
(`src/data_storage.py` lines 62–64). -/
def by_type (pool_data : List PoolOccupancy) : List (String × List PoolOccupancy) :=
  pool_data.foldl (fun acc p => insertAppend acc p.facility_type p) []

/-- Overwrite-or-append of one key, as Python `dict.update` does per
item. -/
def setKey (l : List (String × JVal)) (k : String) (v : JVal) : List (String × JVal) :=
  match l with
  | [] => [(k, v)]
  | (k', v') :: rest =>
    if k' = k then (k', v) :: rest else (k', v') :: setKey rest k v

/-- Model of `scrape_metadata.update(metadata)`. -/
def updateDict (base upd : List (String × JVal)) : List (String × JVal) :=
  upd.foldl (fun acc e => setKey acc e.1 e.2) base

/-- Python string `<` (lexicographic by code point), on char lists. -/
def strLtB : List Char → List Char → Bool
  | [], [] => false
  | [], _ :: _ => true
  | _ :: _, [] => false
  | c :: cs, d :: ds =>
    if c.toNat < d.toNat then true
    else if d.toNat < c.toNat then false
    else strLtB cs ds

/-- Insertion into an ascending run, for the model of Python `sorted` on
the `(type, records)` items (keys are distinct, so only the key order
matters). -/
def sortedInsert {α : Type} (x : String × α) :
    List (String × α) → List (String × α)
  | [] => [x]
  | y :: ys =>
    if strLtB y.1.data x.1.data then y :: sortedInsert x ys else x :: y :: ys

/-- Model of `sorted(by_type.items())` (`src/data_storage.py` line 83):
tuples with distinct first components sort by the string key. -/
def sortPairs {α : Type} : List (String × α) → List (String × α)
  | [] => []
  | x :: xs => sortedInsert x (sortPairs xs)

/-- Python `max(pools, key=...)`: first element with maximal key. -/
def maxByKey (key : PoolOccupancy → ℚ) (x : PoolOccupancy)
    (xs : List PoolOccupancy) : PoolOccupancy :=
  xs.foldl (fun best y => if key best < key y then y else best) x

/-- Python `min(pools, key=...)`: first element with minimal key. -/
def minByKey (key : PoolOccupancy → ℚ) (x : PoolOccupancy)
    (xs : List PoolOccupancy) : PoolOccupancy :=
  xs.foldl (fun best y => if key y < key best then y else best) x

/-- Sort key `x.occupancy_percent or 0`: `None` (and the falsy `0.0`) give
`0`. -/
def busiestKey (p : PoolOccupancy) : ℚ := (models.occupancy_percent p).getD 0

/-- Sort key `x.occupancy_percent or 100`: `None` and the falsy `0.0` both
give `100`. -/
def quietestKey (p : PoolOccupancy) : ℚ :=
  match models.occupancy_percent p with
  | none => 100
  | some q => if q = 0 then 100 else q

/-- One `<type>_count` metadata item
(`scrape_metadata[f'{facility_type}_count'] = len(facilities)`). -/
def countEntry (e : String × List PoolOccupancy) : String × JVal :=
  (e.1 ++ "_count", JVal.int e.2.length)

/-- One pluralized array item
(`facilities_by_type[f'{facility_type}s'] = [f.to_dict() for f in facilities]`). -/
def pluralEntry (e : String × List PoolOccupancy) : String × JVal :=
  (e.1 ++ "s", JVal.arr (e.2.map (fun f => JVal.obj (models.to_dict f))))

/-- The `scrape_metadata` dict of `save_to_json`
(`src/data_storage.py` lines 69–76), before the optional caller-supplied
update: fixed fields, then one `<type>_count` per grouped type. -/
def scrape_metadata_of (pool_data : List PoolOccupancy) (now : DateTime) :
    List (String × JVal) :=
  [("total_facilities", .int pool_data.length),
   ("hour", .int now.hour),
   ("day_of_week", .int now.weekday.val),
   ("is_weekend", .bool (decide (now.weekday.val ≥ 5)))] ++
  (by_type pool_data).map countEntry

/-- The `summary` block of `save_to_json` (`src/data_storage.py` lines
87–99), computed over the `pool` group only; empty when no pool records
exist. -/
def summary_of (pool_data : List PoolOccupancy) : List (String × JVal) :=
  match (jlookup "pool" (by_type pool_data)).getD [] with
  | [] => []
  | p :: ps =>
    [("avg_pool_occupancy",
       .rat (((p :: ps).map (fun q => (models.occupancy_percent q).getD 0)).sum
         / ((p :: ps).length : ℚ))),
     ("busiest_pool", .str (maxByKey busiestKey p ps).pool_name),
     ("quietest_pool", .str (minByKey quietestKey p ps).pool_name)]

/-- Model of the JSON document `DataStorage.save_to_json` writes
(`src/data_storage.py` lines 49–115), as the ordered key/value pairs of
the top-level object.  `now` is `datetime.now(TIMEZONE)` and `metadata`
the optional caller-supplied dict (`[]` for `None`, which is falsy, so no
update happens). -/
def save_to_json_doc (pool_data : List PoolOccupancy) (now : DateTime)
    (metadata : List (String × JVal)) : List (String × JVal) :=
  let scrape_metadata :=
    if metadata.isEmpty then scrape_metadata_of pool_data now
    else updateDict (scrape_metadata_of pool_data now) metadata
  let facilities_by_type := (sortPairs (by_type pool_data)).map pluralEntry
  [("scrape_timestamp", .str now.iso), ("scrape_metadata", .obj scrape_metadata)]
    ++ facilities_by_type ++ [("summary", .obj (summary_of pool_data))]

end data_storage

/-- A sample timezone-aware instant: 2025-08-31 is a Sunday
(`weekday = 6`). -/
def exDT : DateTime := ⟨"2025-08-31T10:00:00+02:00", 10, ⟨6, by omega⟩⟩

/-- A sample registry facility (from the registry's default table). -/
def exFacility : Facility :=
  { org_id := 30195, name := "Bad Giesing-Harlaching", facility_type := .POOL }

/-- A sample payload reporting zero occupancy and zero capacity. -/
def exPayload00 : api_scraper.Payload :=
  { personCount := some 0, maxPersonCount := some 0 }

/-- The record `scrape_pool_data` builds from `exFacility` and
`exPayload00` at instant `exDT`. -/
def exRecord : PoolOccupancy :=
  { pool_name := "Bad Giesing-Harlaching", occupancy_level := "0 % frei",
    timestamp := exDT, raw_occupancy := some "0/0 persons",
    facility_type := "pool" }

/-- A record with a given label at instant `exDT`, for the label-derived
properties. -/
def labelRec (label : String) : PoolOccupancy :=
  { pool_name := "Westbad", occupancy_level := label, timestamp := exDT }

/-- A sample batch of two pool records and one sauna record. -/
def exBatch : List PoolOccupancy :=
  [{ pool_name := "Westbad", occupancy_level := "75 % frei",
     timestamp := exDT, facility_type := "pool" },
   { pool_name := "Nordbad", occupancy_level := "40 % frei",
     timestamp := exDT, facility_type := "pool" },
   { pool_name := "Westbad Sauna", occupancy_level := "20 % frei",
     timestamp := exDT, facility_type := "sauna" }]


/-- Scanning inside a digit run whose full extension fails the `\\s*%` test
never produces a match, so the source's position-by-position scan may skip
the whole run. -/
theorem searchNumPct_dropRun (l : List Char)
    (h : pctAfter (l.dropWhile Char.isDigit) = false) :
    searchNumPct l = searchNumPct (l.dropWhile Char.isDigit) := by
  induction l with
  | nil => rfl
  | cons c rest ih =>
    by_cases hc : c.isDigit
    · have hdrop : (c :: rest).dropWhile Char.isDigit = rest.dropWhile Char.isDigit := by
        simp [List.dropWhile_cons, hc]
      rw [hdrop] at h
      rw [searchNumPct, if_pos hc, hdrop, if_neg (by simp [h])]
      exact ih h
    · have hdrop : (c :: rest).dropWhile Char.isDigit = c :: rest := by
        simp [List.dropWhile_cons, hc]
      rw [hdrop]

/-- The source regex search agrees with the specification's description in
terms of maximal digit runs. -/
theorem searchNumPct_eq_spec (l : List Char) :
    searchNumPct l = specFirstPctInt l := by
  generalize hn : l.length = n
  induction n using Nat.strong_induction_on generalizing l with
  | _ n ih =>
    match l with
    | [] => simp [searchNumPct, specFirstPctInt]
    | c :: rest =>
      by_cases hc : c.isDigit
      · have hdrop : (c :: rest).dropWhile Char.isDigit = rest.dropWhile Char.isDigit := by
          simp [List.dropWhile_cons, hc]
        by_cases hp : pctAfter (rest.dropWhile Char.isDigit)
        · rw [searchNumPct, if_pos hc, hdrop, if_pos hp,
            specFirstPctInt, if_pos hc, if_pos hp]
        · have hfail : pctAfter (rest.dropWhile Char.isDigit) = false := by
            simpa using hp
          rw [searchNumPct, if_pos hc, hdrop, if_neg (by simp [hfail]),
            specFirstPctInt, if_pos hc, if_neg (by simp [hfail])]
          rw [searchNumPct_dropRun rest hfail]
          have hlen : (rest.dropWhile Char.isDigit).length < n := by
            have := (List.dropWhile_suffix (l := rest) Char.isDigit).length_le
            simp only [← hn, List.length_cons]
            omega
          exact ih _ hlen _ rfl
      · rw [searchNumPct, if_neg (by simp [hc]), specFirstPctInt, if_neg (by simp [hc])]
        have hlen : rest.length < n := by simp [← hn]
        exact ih _ hlen _ rfl

/-- Correctness of the `startswith` helper. -/
theorem leadsWith_iff (hay nd : List Char) :
    models.leadsWith hay nd = true ↔ ∃ post, hay = nd ++ post := by
  induction nd generalizing hay with
  | nil => simp [models.leadsWith]
  | cons d ds ih =>
    cases hay with
    | nil => simp [models.leadsWith]
    | cons c cs =>
      simp only [models.leadsWith, Bool.and_eq_true, decide_eq_true_eq, ih,
        List.cons_append, List.cons.injEq]
      constructor
      · rintro ⟨rfl, post, rfl⟩; exact ⟨post, rfl, rfl⟩
      · rintro ⟨post, rfl, rfl⟩; exact ⟨rfl, post, rfl⟩

/-- Correctness of the substring-containment helper: `hasSubstr hay nd`
holds exactly when `nd` occurs contiguously inside `hay`. -/
theorem hasSubstr_iff (hay nd : List Char) :
    models.hasSubstr hay nd = true ↔ ∃ pre post, hay = pre ++ nd ++ post := by
  induction hay with
  | nil =>
    simp only [models.hasSubstr, List.isEmpty_iff]
    constructor
    · rintro rfl; exact ⟨[], [], rfl⟩
    · rintro ⟨pre, post, h⟩
      rcases List.append_eq_nil.mp h.symm with ⟨h1, h2⟩
      rcases List.append_eq_nil.mp h1 with ⟨-, h3⟩
      exact h3
  | cons c rest ih =>
    simp only [models.hasSubstr, Bool.or_eq_true, leadsWith_iff, ih]
    constructor
    · rintro (⟨post, hpost⟩ | ⟨pre, post, hpp⟩)
      · exact ⟨[], post, by simpa using hpost⟩
      · exact ⟨c :: pre, post, by simp [hpp]⟩
    · rintro ⟨pre, post, hpp⟩
      cases pre with
      | nil => exact Or.inl ⟨post, by simpa using hpp⟩
      | cons p ps =>
        right
        simp only [List.cons_append, List.cons.injEq] at hpp
        exact ⟨ps, post, hpp.2⟩

set_option linter.unusedVariables false in
/-- C1: for a payload with integer fields `personCount ≥ 0` and
`maxPersonCount ≥ 0`, the orchestrator derives the free-occupancy
percentage as `round((1 - personCount / maxPersonCount) * 100)` when
`maxPersonCount > 0` and as `0` when `maxPersonCount = 0`; in particular
`0/0` yields `0` (never an error) and `50/200` yields `75`. -/
theorem C1_percent_derivation (personCount maxPersonCount : Int)
    (hc : 0 ≤ personCount) (hm : 0 ≤ maxPersonCount) :
    (api_scraper.derive_percent
        { personCount := some personCount, maxPersonCount := some maxPersonCount } =
      if 0 < maxPersonCount then
        pyRound ((1 - (personCount : ℚ) / (maxPersonCount : ℚ)) * 100)
      else 0)
    ∧ api_scraper.derive_percent { personCount := some 0, maxPersonCount := some 0 } = 0
    ∧ api_scraper.derive_percent { personCount := some 50, maxPersonCount := some 200 } = 75 := by
  refine ⟨?_, ?_, ?_⟩
  · simp [api_scraper.derive_percent]
  · simp [api_scraper.derive_percent]
  · simp only [api_scraper.derive_percent, Option.getD_some]
    norm_num [pyRound]

/-- Witness for C1 at `personCount = 50`, `maxPersonCount = 200`. -/
theorem C1_percent_derivation_witness :
    (0 : Int) ≤ 50 ∧ (0 : Int) ≤ 200 ∧
    api_scraper.derive_percent { personCount := some 50, maxPersonCount := some 200 } = 75 :=
  ⟨by norm_num, by norm_num,
    (C1_percent_derivation 50 200 (by norm_num) (by norm_num)).2.2⟩

/-- C9: a fetcher invocation returns the first element of a successful
non-empty JSON array response, and returns `None` — not an exception —
both on a successful empty array and on any request error after transport
retries. -/
theorem C9_fetch_absence_not_error :
    (∀ msg, api_scraper.fetch_occupancy (.requestError msg) = none)
    ∧ (∀ first rest, api_scraper.fetch_occupancy (.success (.arr (first :: rest))) = some first)
    ∧ api_scraper.fetch_occupancy (.success (.arr [])) = none :=
  ⟨fun _ => rfl, fun _ _ => rfl, rfl⟩

/-- C10 (counterexample): the claim's example is false of the program —
an empty mapping returned by the fetcher is falsy under the `if data:`
guard (`src/api_scraper.py` line 93), so the orchestrator skips the
facility and produces no record at all, rather than a `"100 % frei"`
record. -/
theorem C10_empty_payload_no_record :
    (api_scraper.scrape_pool_data [exFacility]
      (fun _ => some { personCount := none, maxPersonCount := none }) exDT).1 =
      [] := by
  decide

/-- C10 (amended): a non-empty (truthy) payload lacking `maxPersonCount`
gets capacity 1 (not 0), so the guarded-division zero branch is skipped:
the percentage is `round((1 - personCount / 1) * 100)`; the payload
holding only `personCount = 0` produces a `"100 % frei"` record.  An
empty mapping is falsy and produces no record. -/
theorem C10_missing_capacity_defaults_to_one (personCount : Int) :
    (api_scraper.derive_percent { personCount := some personCount, maxPersonCount := none } =
      pyRound ((1 - (personCount : ℚ) / 1) * 100))
    ∧ api_scraper.derive_percent { personCount := some 0, maxPersonCount := none } = 100
    ∧ (api_scraper.scrape_pool_data [exFacility]
        (fun _ => some { personCount := some 0, maxPersonCount := none }) exDT).1 =
      [{ pool_name := "Bad Giesing-Harlaching", occupancy_level := "100 % frei",
         timestamp := exDT, raw_occupancy := some "0/1 persons",
         facility_type := "pool" }] := by
  have h100 : api_scraper.derive_percent
      { personCount := some 0, maxPersonCount := none } = 100 := by
    simp only [api_scraper.derive_percent, Option.getD_some, Option.getD_none]
    norm_num [pyRound]
  refine ⟨?_, h100, ?_⟩
  · simp [api_scraper.derive_percent]
  · simp only [api_scraper.scrape_pool_data, api_scraper.scrape_step, List.filter,
      h100]
    decide

/-- C2: a record's `occupancy_percent` is the value of the first integer
in the label that is followed, possibly with intervening whitespace, by a
`%` sign, as a number; when no such pattern exists, and for the empty
label, it is `None`.  `"75 % frei"` yields `75.0`, `"geschlossen"` yields
`None`. -/
theorem C2_occupancy_percent_first_int (p : PoolOccupancy) :
    models.occupancy_percent p =
      (specFirstPctInt p.occupancy_level.data).map (fun n => (n : ℚ))
    ∧ models.occupancy_percent (labelRec "75 % frei") = some 75
    ∧ models.occupancy_percent (labelRec "geschlossen") = none
    ∧ models.occupancy_percent (labelRec "") = none := by
  refine ⟨?_, ?_, ?_, ?_⟩
  · by_cases h : p.occupancy_level = ""
    · have hd : p.occupancy_level.data = [] := by rw [h]
      simp [models.occupancy_percent, h, hd, specFirstPctInt]
    · simp [models.occupancy_percent, h, searchNumPct_eq_spec]
  · have h1 : searchNumPct "75 % frei".data = some 75 := by decide
    simp [models.occupancy_percent, labelRec, h1]
  · have h2 : searchNumPct "geschlossen".data = none := by decide
    simp [models.occupancy_percent, labelRec, h2]
  · simp [models.occupancy_percent, labelRec]

/-- C3: `is_open` is false exactly when the label is empty or its
lowercasing contains one of the closed keywords (`geschlossen`, `closed`,
`zu`) as a contiguous substring; otherwise true.  `"GESCHLOSSEN"` yields
false, `"85 % frei"` yields true. -/
theorem C3_is_open_closed_keywords (p : PoolOccupancy) :
    (models.is_open p = false ↔
      p.occupancy_level = "" ∨
      ∃ kw ∈ models.closed_keywords, ∃ pre post,
        (models.lowerStr p.occupancy_level).data = pre ++ kw.data ++ post)
    ∧ models.is_open (labelRec "GESCHLOSSEN") = false
    ∧ models.is_open (labelRec "85 % frei") = true := by
  refine ⟨?_, by decide, by decide⟩
  by_cases h : p.occupancy_level = ""
  · simp [models.is_open, h]
  · simp [models.is_open, h, List.any_eq_true, hasSubstr_iff]

/-- C7: the spec says `register`/`add_facility` inserts or updates by
upstream id, sets `first_seen` on first insertion, refreshes `last_seen`,
and persists.  The code instead evaluates the unbound name `org_id` in
`if org_id not in self.facilities:` and raises `NameError` on every call,
updating and persisting nothing. -/
theorem C7_add_facility_raises_name_error :
    facility_registry.add_facility [] exFacility true =
      ({ exFacility with auto_discovered := true },
        Except.error "NameError: name 'org_id' is not defined") := rfl

/-- C8: for a `(name, type)` pair with no mapping, `get_org_id` returns
`None` without raising while `require_id` fails with an
`UnknownFacilityError` carrying the attempted name and type. -/
theorem C8_unknown_facility_resolution (name : String)
    (facility_type : facilities.FacilityType)
    (h : facilities.get_org_id name facility_type = none) :
    facilities.require_id name facility_type =
      Except.error { name := name, facility_type := facility_type } := by
  simp [facilities.require_id, h]

/-- Witness for C8 at the spec's example `("Nonexistent", POOL)`. -/
theorem C8_unknown_facility_resolution_witness :
    facilities.get_org_id "Nonexistent" facilities.FacilityType.POOL = none ∧
    facilities.require_id "Nonexistent" facilities.FacilityType.POOL =
      Except.error { name := "Nonexistent",
                     facility_type := facilities.FacilityType.POOL } :=
  ⟨by decide, C8_unknown_facility_resolution "Nonexistent" _ (by decide)⟩

/-- Every record the scrape loop emits carries the timestamp `t` that was
captured once before the loop. -/
theorem scrape_step_timestamp (fetch : Int → Option api_scraper.Payload)
    (t : DateTime) (l : List Facility) (r : PoolOccupancy)
    (hr : r ∈ (api_scraper.scrape_step fetch t l).1) : r.timestamp = t := by
  induction l with
  | nil => simp [api_scraper.scrape_step] at hr
  | cons f rest ih =>
    rw [api_scraper.scrape_step] at hr
    cases hfe : fetch f.org_id with
    | none =>
      rw [hfe] at hr
      exact ih hr
    | some data =>
      rw [hfe] at hr
      by_cases htr : data.truthy
      · simp only [htr, if_true, List.mem_cons] at hr
        rcases hr with rfl | hr
        · rfl
        · exact ih hr
      · simp only [htr, Bool.false_eq_true, if_false] at hr
        exact ih hr

/-- C4: all records of one scrape cycle carry the identical timestamp,
the one captured once at batch start before any facility is fetched. -/
theorem C4_batch_single_timestamp (facilities : List Facility)
    (fetch : Int → Option api_scraper.Payload) (t : DateTime)
    (r : PoolOccupancy)
    (hr : r ∈ (api_scraper.scrape_pool_data facilities fetch t).1) :
    r.timestamp = t :=
  scrape_step_timestamp fetch t _ r hr

/-- Witness for C4: a one-facility batch whose record carries `exDT`. -/
theorem C4_batch_single_timestamp_witness :
    exRecord ∈ (api_scraper.scrape_pool_data [exFacility]
      (fun _ => some exPayload00) exDT).1 ∧
    exRecord.timestamp = exDT :=
  ⟨by decide,
    C4_batch_single_timestamp [exFacility] (fun _ => some exPayload00) exDT
      exRecord (by decide)⟩

/-- C5: `save_to_csv` appends, writing the header exactly when the file
did not exist before opening; two saves of batches of sizes M and N into a
fresh path give one header line followed by the M rows then the N rows,
in batch order. -/
theorem C5_csv_append_idempotent_header (b1 b2 : List PoolOccupancy)
    (f : List data_storage.CsvLine) :
    data_storage.save_to_csv none b1 =
      data_storage.CsvLine.header ::
        b1.map (fun p => data_storage.CsvLine.row (models.to_csv_row p))
    ∧ data_storage.save_to_csv (some f) b2 =
        f ++ b2.map (fun p => data_storage.CsvLine.row (models.to_csv_row p))
    ∧ data_storage.save_to_csv (some (data_storage.save_to_csv none b1)) b2 =
        data_storage.CsvLine.header ::
          (b1.map (fun p => data_storage.CsvLine.row (models.to_csv_row p)) ++
            b2.map (fun p => data_storage.CsvLine.row (models.to_csv_row p)))
    ∧ List.countP
        (fun l => match l with | data_storage.CsvLine.header => true | _ => false)
        (data_storage.save_to_csv (some (data_storage.save_to_csv none b1)) b2) =
        1 := by
  refine ⟨by simp [data_storage.save_to_csv], by simp [data_storage.save_to_csv],
    by simp [data_storage.save_to_csv], ?_⟩
  simp only [data_storage.save_to_csv, Option.isSome_some, Option.getD_some,
    Option.isSome_none, Option.getD_none, if_true, if_false, Bool.false_eq_true,
    List.nil_append, List.cons_append, List.countP_cons, List.countP_append]
  have hrows : ∀ b : List PoolOccupancy,
      List.countP
        (fun l => match l with | data_storage.CsvLine.header => true | _ => false)
        (b.map (fun p => data_storage.CsvLine.row (models.to_csv_row p))) = 0 := by
    intro b
    rw [List.countP_eq_zero]
    intro a ha
    rcases List.mem_map.mp ha with ⟨p, -, rfl⟩
    simp
  rw [hrows, hrows]

/-- Association lookup distributes over list append. -/
theorem jlookup_append {α : Type} (k : String) (l1 l2 : List (String × α)) :
    data_storage.jlookup k (l1 ++ l2) =
      match data_storage.jlookup k l1 with
      | some v => some v
      | none => data_storage.jlookup k l2 := by
  induction l1 with
  | nil => simp [data_storage.jlookup]
  | cons e rest ih =>
    obtain ⟨k', v⟩ := e
    by_cases h : k' = k <;> simp [data_storage.jlookup, h, ih]

/-- Lookup after `insertAppend`: the inserted key gains the appended
element, every other key is untouched. -/
theorem jlookup_insertAppend (l : List (String × List PoolOccupancy))
    (k : String) (p : PoolOccupancy) (t : String) :
    data_storage.jlookup t (data_storage.insertAppend l k p) =
      if t = k then some (((data_storage.jlookup k l).getD []) ++ [p])
      else data_storage.jlookup t l := by
  induction l with
  | nil =>
    by_cases h : t = k
    · subst h; simp [data_storage.insertAppend, data_storage.jlookup]
    · simp [data_storage.insertAppend, data_storage.jlookup, h, Ne.symm h]
  | cons e rest ih =>
    obtain ⟨k', v⟩ := e
    by_cases hk : k' = k
    · subst hk
      by_cases ht : t = k'
      · subst ht; simp [data_storage.insertAppend, data_storage.jlookup]
      · simp [data_storage.insertAppend, data_storage.jlookup,
          fun h => ht (h : t = k'), Ne.symm ht, ht]
    · by_cases ht : k' = t
      · subst ht
        have : ¬ (k' = k) := hk
        simp [data_storage.insertAppend, data_storage.jlookup, hk,
          fun h => hk (h : k' = k), Ne.symm hk]
      · simp [data_storage.insertAppend, data_storage.jlookup, hk, ht, ih]

/-- Lookup after the grouping fold: what the accumulator already held for
`t`, extended by the batch's records of type `t`. -/
theorem jlookup_by_type_fold (batch : List PoolOccupancy) :
    ∀ (acc : List (String × List PoolOccupancy)) (t : String),
      data_storage.jlookup t
        (batch.foldl (fun a p => data_storage.insertAppend a p.facility_type p) acc) =
      if data_storage.jlookup t acc = none ∧
          batch.filter (fun p => p.facility_type = t) = [] then none
      else some ((data_storage.jlookup t acc).getD [] ++
        batch.filter (fun p => p.facility_type = t)) := by
  induction batch with
  | nil =>
    intro acc t
    cases h : data_storage.jlookup t acc <;> simp [h]
  | cons p rest ih =>
    intro acc t
    rw [List.foldl_cons, ih, jlookup_insertAppend]
    by_cases hpt : p.facility_type = t
    · subst hpt
      cases h : data_storage.jlookup p.facility_type acc <;>
        simp [List.filter_cons, h]
    · have hpt' : ¬ (t = p.facility_type) := fun h => hpt h.symm
      simp [List.filter_cons, hpt, hpt']

/-- Lookup in the grouped batch: exactly the batch's records of that type,
in batch order; absent types have no entry. -/
theorem by_type_lookup (batch : List PoolOccupancy) (t : String) :
    data_storage.jlookup t (data_storage.by_type batch) =
      if batch.filter (fun p => p.facility_type = t) = [] then none
      else some (batch.filter (fun p => p.facility_type = t)) := by
  have h := jlookup_by_type_fold batch [] t
  simp only [data_storage.by_type]
  rw [h]
  simp [data_storage.jlookup]

/-- A type has no records in the batch exactly when it does not occur
among the batch's facility types. -/
theorem filter_type_eq_nil_iff (batch : List PoolOccupancy) (t : String) :
    batch.filter (fun p => p.facility_type = t) = [] ↔
      t ∉ batch.map (fun p => p.facility_type) := by
  rw [List.filter_eq_nil_iff]
  simp only [decide_eq_true_eq]
  constructor
  · intro h hmem
    rcases List.mem_map.mp hmem with ⟨p, hp, hpt⟩
    exact h p hp hpt
  · intro h p hp hpt
    exact h (List.mem_map.mpr ⟨p, hp, hpt⟩)

/-- Keys after `insertAppend`: unchanged if the key was present, else the
key is appended. -/
theorem insertAppend_keys (l : List (String × List PoolOccupancy))
    (k : String) (p : PoolOccupancy) :
    (data_storage.insertAppend l k p).map Prod.fst =
      if k ∈ l.map Prod.fst then l.map Prod.fst else l.map Prod.fst ++ [k] := by
  induction l with
  | nil => simp [data_storage.insertAppend]
  | cons e rest ih =>
    obtain ⟨k', v⟩ := e
    by_cases h : k' = k
    · subst h; simp [data_storage.insertAppend]
    · simp [data_storage.insertAppend, h, ih, Ne.symm h]
      by_cases hmem : k ∈ rest.map Prod.fst <;> simp [hmem, Ne.symm h]

/-- `insertAppend` preserves distinctness of keys. -/
theorem insertAppend_nodup_keys (l : List (String × List PoolOccupancy))
    (k : String) (p : PoolOccupancy)
    (h : (l.map Prod.fst).Nodup) :
    ((data_storage.insertAppend l k p).map Prod.fst).Nodup := by
  rw [insertAppend_keys]
  by_cases hmem : k ∈ l.map Prod.fst
  · simpa [hmem] using h
  · simp only [hmem, if_false, Bool.false_eq_true]
    rw [List.nodup_append]
    exact ⟨h, List.nodup_singleton k, by simpa using hmem⟩

/-- The grouped batch has distinct type keys. -/
theorem by_type_nodup_keys (batch : List PoolOccupancy) :
    ((data_storage.by_type batch).map Prod.fst).Nodup := by
  have hgen : ∀ (acc : List (String × List PoolOccupancy)),
      (acc.map Prod.fst).Nodup →
      (((batch.foldl (fun a p => data_storage.insertAppend a p.facility_type p) acc)).map
        Prod.fst).Nodup := by
    induction batch with
    | nil => intro acc h; simpa using h
    | cons p rest ih =>
      intro acc h
      rw [List.foldl_cons]
      exact ih _ (insertAppend_nodup_keys acc p.facility_type p h)
  simpa [data_storage.by_type] using hgen [] (by simp)

/-- With distinct keys, lookup success is membership. -/
theorem jlookup_some_iff {α : Type} (l : List (String × α))
    (hnd : (l.map Prod.fst).Nodup) (k : String) (v : α) :
    data_storage.jlookup k l = some v ↔ (k, v) ∈ l := by
  induction l with
  | nil => simp [data_storage.jlookup]
  | cons e rest ih =>
    obtain ⟨k', v'⟩ := e
    simp only [List.map_cons, List.nodup_cons] at hnd
    by_cases h : k' = k
    · subst h
      have hstep : data_storage.jlookup k' ((k', v') :: rest) = some v' := by
        simp [data_storage.jlookup]
      rw [hstep]
      simp only [Option.some.injEq, List.mem_cons, Prod.mk.injEq]
      constructor
      · rintro rfl
        exact Or.inl ⟨trivial, rfl⟩
      · rintro (⟨-, rfl⟩ | hmem)
        · rfl
        · exact absurd (List.mem_map.mpr ⟨_, hmem, rfl⟩) hnd.1
    · have hstep : data_storage.jlookup k ((k', v') :: rest) =
          data_storage.jlookup k rest := by
        simp [data_storage.jlookup, h]
      rw [hstep, ih hnd.2]
      simp only [List.mem_cons, Prod.mk.injEq]
      constructor
      · exact Or.inr
      · rintro (⟨rfl, -⟩ | hmem)
        · exact absurd rfl h
        · exact hmem

/-- Lookup failure is key absence. -/
theorem jlookup_none_iff {α : Type} (l : List (String × α)) (k : String) :
    data_storage.jlookup k l = none ↔ k ∉ l.map Prod.fst := by
  induction l with
  | nil => simp [data_storage.jlookup]
  | cons e rest ih =>
    obtain ⟨k', v'⟩ := e
    by_cases h : k' = k
    · subst h; simp [data_storage.jlookup]
    · simp [data_storage.jlookup, h, ih, Ne.symm h]

/-- Ordered insertion is a permutation of consing. -/
theorem sortedInsert_perm {α : Type} (x : String × α) (l : List (String × α)) :
    (data_storage.sortedInsert x l).Perm (x :: l) := by
  induction l with
  | nil => simp [data_storage.sortedInsert]
  | cons y ys ih =>
    by_cases h : data_storage.strLtB y.1.data x.1.data
    · simp only [data_storage.sortedInsert, if_pos h]
      exact (ih.cons y).trans (List.Perm.swap x y ys)
    · simp [data_storage.sortedInsert, h]

/-- The model of Python `sorted` permutes its input. -/
theorem sortPairs_perm {α : Type} (l : List (String × α)) :
    (data_storage.sortPairs l).Perm l := by
  induction l with
  | nil => simp [data_storage.sortPairs]
  | cons x xs ih =>
    exact (sortedInsert_perm x (data_storage.sortPairs xs)).trans (ih.cons x)

/-- Sorting the grouped items does not change lookups (keys are
distinct). -/
theorem jlookup_sortPairs {α : Type} (l : List (String × α))
    (h : (l.map Prod.fst).Nodup) (k : String) :
    data_storage.jlookup k (data_storage.sortPairs l) =
      data_storage.jlookup k l := by
  have hperm := sortPairs_perm l
  have hnd : ((data_storage.sortPairs l).map Prod.fst).Nodup :=
    ((hperm.map Prod.fst).nodup_iff).mpr h
  cases hv : data_storage.jlookup k l with
  | some v =>
    exact (jlookup_some_iff _ hnd _ _).mpr
      (hperm.mem_iff.mpr ((jlookup_some_iff _ h _ _).mp hv))
  | none =>
    rw [jlookup_none_iff] at hv ⊢
    intro hmem
    exact hv ((hperm.map Prod.fst).mem_iff.mp hmem)

/-- The pluralization `t ↦ t ++ "s"` is injective, so looking up
`t ++ "s"` among the pluralized entries is looking up `t` among the
grouped items. -/
theorem jlookup_map_pluralEntry (l : List (String × List PoolOccupancy))
    (t : String) :
    data_storage.jlookup (t ++ "s") (l.map data_storage.pluralEntry) =
      (data_storage.jlookup t l).map
        (fun fs => JVal.arr (fs.map (fun f => JVal.obj (models.to_dict f)))) := by
  induction l with
  | nil => simp [data_storage.jlookup]
  | cons e rest ih =>
    obtain ⟨k, v⟩ := e
    by_cases h : k = t
    · subst h
      simp [data_storage.jlookup, data_storage.pluralEntry]
    · have h2 : k ++ "s" ≠ t ++ "s" := by
        intro he
        have hd := congrArg String.data he
        rw [String.data_append, String.data_append] at hd
        exact h (by
          have := List.append_cancel_right hd
          exact String.ext this)
      simp [data_storage.jlookup, data_storage.pluralEntry, h, h2, ih]

/-- Same key-injectivity argument for the `<type>_count` metadata
entries. -/
theorem jlookup_map_countEntry (l : List (String × List PoolOccupancy))
    (t : String) :
    data_storage.jlookup (t ++ "_count") (l.map data_storage.countEntry) =
      (data_storage.jlookup t l).map (fun fs => JVal.int fs.length) := by
  induction l with
  | nil => simp [data_storage.jlookup]
  | cons e rest ih =>
    obtain ⟨k, v⟩ := e
    by_cases h : k = t
    · subst h
      simp [data_storage.jlookup, data_storage.countEntry]
    · have h2 : k ++ "_count" ≠ t ++ "_count" := by
        intro he
        have hd := congrArg String.data he
        rw [String.data_append, String.data_append] at hd
        exact h (by
          have := List.append_cancel_right hd
          exact String.ext this)
      simp [data_storage.jlookup, data_storage.countEntry, h, h2, ih]

/-- Strings whose last characters differ are different, even after a
common left part: used to separate `t ++ "s"` and `t ++ "_count"` from
the document's fixed keys. -/
theorem append_ne_of_last (t suf s2 : String) (hsuf : suf.data ≠ [])
    (h : s2.data.getLast? ≠ suf.data.getLast?) : t ++ suf ≠ s2 := by
  intro he
  apply h
  rw [← he, String.data_append, List.getLast?_append_of_ne_nil _ hsuf]

/-- Shape of the document built for a batch with no caller metadata. -/
theorem save_to_json_doc_shape (batch : List PoolOccupancy) (now : DateTime) :
    data_storage.save_to_json_doc batch now [] =
      ("scrape_timestamp", JVal.str now.iso) ::
      ("scrape_metadata", JVal.obj (data_storage.scrape_metadata_of batch now)) ::
      ((data_storage.sortPairs (data_storage.by_type batch)).map
          data_storage.pluralEntry ++
        [("summary", JVal.obj (data_storage.summary_of batch))]) := by
  simp [data_storage.save_to_json_doc]

/-- C6: the JSON document groups dynamically by facility type: every type
`t` occurring in the batch yields an array under the pluralized key
`t ++ "s"` holding exactly the batch's records of type `t` (as dicts, in
batch order) and a metadata field `t ++ "_count"` equal to that array's
length; a type absent from the batch yields neither key. -/
theorem C6_json_dynamic_grouping (batch : List PoolOccupancy) (now : DateTime)
    (t : String) :
    (t ∈ batch.map (fun p => p.facility_type) →
      data_storage.jlookup (t ++ "s") (data_storage.save_to_json_doc batch now []) =
        some (JVal.arr ((batch.filter (fun p => p.facility_type = t)).map
          (fun f => JVal.obj (models.to_dict f)))) ∧
      data_storage.jlookup "scrape_metadata"
          (data_storage.save_to_json_doc batch now []) =
        some (JVal.obj (data_storage.scrape_metadata_of batch now)) ∧
      data_storage.jlookup (t ++ "_count") (data_storage.scrape_metadata_of batch now) =
        some (JVal.int (batch.filter (fun p => p.facility_type = t)).length))
    ∧ (t ∉ batch.map (fun p => p.facility_type) →
      data_storage.jlookup (t ++ "s") (data_storage.save_to_json_doc batch now []) =
        none ∧
      data_storage.jlookup (t ++ "_count") (data_storage.scrape_metadata_of batch now) =
        none) := by
  have hnd := by_type_nodup_keys batch
  have hby := by_type_lookup batch t
  have hfacs : data_storage.jlookup (t ++ "s")
      ((data_storage.sortPairs (data_storage.by_type batch)).map
        data_storage.pluralEntry) =
      (data_storage.jlookup t (data_storage.by_type batch)).map
        (fun fs => JVal.arr (fs.map (fun f => JVal.obj (models.to_dict f)))) := by
    rw [jlookup_map_pluralEntry, jlookup_sortPairs _ hnd]
  have hmeta : data_storage.jlookup (t ++ "_count")
      (data_storage.scrape_metadata_of batch now) =
      (data_storage.jlookup t (data_storage.by_type batch)).map
        (fun fs => JVal.int fs.length) := by
    have h1 : ("total_facilities" : String) ≠ t ++ "_count" :=
      Ne.symm (append_ne_of_last t "_count" _ (by decide) (by decide))
    have h2 : ("hour" : String) ≠ t ++ "_count" :=
      Ne.symm (append_ne_of_last t "_count" _ (by decide) (by decide))
    have h3 : ("day_of_week" : String) ≠ t ++ "_count" :=
      Ne.symm (append_ne_of_last t "_count" _ (by decide) (by decide))
    have h4 : ("is_weekend" : String) ≠ t ++ "_count" :=
      Ne.symm (append_ne_of_last t "_count" _ (by decide) (by decide))
    simp [data_storage.scrape_metadata_of, data_storage.jlookup, h1, h2, h3, h4,
      jlookup_map_countEntry]
  have hdoc : data_storage.jlookup (t ++ "s")
      (data_storage.save_to_json_doc batch now []) =
      (data_storage.jlookup t (data_storage.by_type batch)).map
        (fun fs => JVal.arr (fs.map (fun f => JVal.obj (models.to_dict f)))) := by
    have h1 : ("scrape_timestamp" : String) ≠ t ++ "s" :=
      Ne.symm (append_ne_of_last t "s" _ (by decide) (by decide))
    have h2 : ("scrape_metadata" : String) ≠ t ++ "s" :=
      Ne.symm (append_ne_of_last t "s" _ (by decide) (by decide))
    have h3 : ("summary" : String) ≠ t ++ "s" :=
      Ne.symm (append_ne_of_last t "s" _ (by decide) (by decide))
    rw [save_to_json_doc_shape]
    simp only [data_storage.jlookup, if_neg h1, if_neg h2]
    rw [jlookup_append, hfacs]
    cases hbt : data_storage.jlookup t (data_storage.by_type batch) <;>
      simp [hbt, data_storage.jlookup, h3]
  have hmetadoc : data_storage.jlookup "scrape_metadata"
      (data_storage.save_to_json_doc batch now []) =
      some (JVal.obj (data_storage.scrape_metadata_of batch now)) := by
    have hx : ("scrape_timestamp" : String) ≠ "scrape_metadata" := by decide
    rw [save_to_json_doc_shape]
    simp [data_storage.jlookup, hx]
  constructor
  · intro hmem
    have hfil : ¬ (batch.filter (fun p => p.facility_type = t) = []) :=
      fun hf => (filter_type_eq_nil_iff batch t).mp hf hmem
    refine ⟨?_, hmetadoc, ?_⟩
    · rw [hdoc, hby, if_neg hfil]
      rfl
    · rw [hmeta, hby, if_neg hfil]
      rfl
  · intro hmem
    have hfil : batch.filter (fun p => p.facility_type = t) = [] :=
      (filter_type_eq_nil_iff batch t).mpr hmem
    constructor
    · rw [hdoc, hby, if_pos hfil]
      rfl
    · rw [hmeta, hby, if_pos hfil]
      rfl

/-- Witness for C6: two pool records and one sauna record give a `pools`
array of length 2, a `saunas` group, `pool_count = 2` and
`sauna_count = 1`. -/
theorem C6_json_dynamic_grouping_witness :
    ("pool" ∈ exBatch.map (fun p => p.facility_type)) ∧
    ("sauna" ∈ exBatch.map (fun p => p.facility_type)) ∧
    (exBatch.filter (fun p => p.facility_type = "pool")).length = 2 ∧
    (exBatch.filter (fun p => p.facility_type = "sauna")).length = 1 ∧
    data_storage.jlookup ("pool" ++ "s")
        (data_storage.save_to_json_doc exBatch exDT []) =
      some (JVal.arr ((exBatch.filter (fun p => p.facility_type = "pool")).map
        (fun f => JVal.obj (models.to_dict f)))) ∧
    data_storage.jlookup ("pool" ++ "_count")
        (data_storage.scrape_metadata_of exBatch exDT) =
      some (JVal.int (exBatch.filter (fun p => p.facility_type = "pool")).length) ∧
    data_storage.jlookup ("sauna" ++ "_count")
        (data_storage.scrape_metadata_of exBatch exDT) =
      some (JVal.int (exBatch.filter (fun p => p.facility_type = "sauna")).length) :=
  ⟨by decide, by decide, by decide, by decide,
   ((C6_json_dynamic_grouping exBatch exDT "pool").1 (by decide)).1,
   ((C6_json_dynamic_grouping exBatch exDT "pool").1 (by decide)).2.2,
   ((C6_json_dynamic_grouping exBatch exDT "sauna").1 (by decide)).2.2⟩
